import Mathlib

set_option linter.unusedVariables false

/-!
Verification of the NexusNotes notebook state model.

This file gives a shallow embedding of the state-manipulating core of the
NexusNotes application (a client-side research-notebook app) and proves
properties of it.  The data model mirrors `types.ts`; the operations mirror
the handler functions of `App`, `Workspace`, `NotePad`, `SourceSidebar`,
`FlashcardView`, `QuizView`, `InfographicView`/`DraftingView` and the
generator wrappers of `geminiService`.  External effects (the generative-AI
oracle, `JSON.parse`, clocks) are passed in as explicit parameters; JS
timestamps (`Date.now()`) are natural numbers and entity ids are their
decimal string images, exactly as produced by `Date.now().toString()`.
-/

namespace NexusNotes

/-- Content-kind tag of a `Source` (`types.ts`: `'pdf' | 'text' | 'image'`). -/
inductive SourceKind where
  | pdf
  | text
  | image
deriving DecidableEq, Repr

/-- Mirrors `Source` from `types.ts`. -/
structure Source where
  id : String
  name : String
  kind : SourceKind
  content : String
  timestamp : Nat
deriving DecidableEq, Repr

/-- Mirrors `Note` from `types.ts`. -/
structure Note where
  id : String
  content : String
  createdAt : Nat
deriving DecidableEq, Repr

/-- Mirrors `Infographic` from `types.ts`. -/
structure Infographic where
  id : String
  imageUrl : String
  createdAt : Nat
  prompt : String
deriving DecidableEq, Repr

/-- Mirrors `Flashcard` from `types.ts`. -/
structure Flashcard where
  front : String
  back : String
deriving DecidableEq, Repr

/-- Mirrors `FlashcardSet` from `types.ts`. -/
structure FlashcardSet where
  id : String
  title : String
  cards : List Flashcard
  createdAt : Nat
deriving DecidableEq, Repr

/-- Mirrors `QuizQuestion` from `types.ts`.  `correctAnswerIndex` is an `Int`
because user answers are compared against it and an unanswered slot is `-1`. -/
structure QuizQuestion where
  id : String
  question : String
  options : List String
  correctAnswerIndex : Int
  explanation : String
deriving DecidableEq, Repr

/-- Mirrors `Quiz` from `types.ts`. -/
structure Quiz where
  id : String
  title : String
  questions : List QuizQuestion
  createdAt : Nat
deriving DecidableEq, Repr

/-- Mirrors `QuizResult` from `types.ts`. -/
structure QuizResult where
  id : String
  quizId : String
  score : Nat
  totalQuestions : Nat
  date : Nat
  userAnswers : List Int
deriving DecidableEq, Repr

/-- Kind tag of a `Draft` (`types.ts`). -/
inductive DraftKind where
  | cleanup
  | essay
  | studyGuide
  | summary
  | email
deriving DecidableEq, Repr

/-- Mirrors `Draft` from `types.ts`. -/
structure Draft where
  id : String
  title : String
  kind : DraftKind
  content : String
  createdAt : Nat
deriving DecidableEq, Repr

/-- Mirrors `Notebook` from `types.ts`.  The four collections that are
optional in the TypeScript interface (`flashcardSets?`, `quizzes?`,
`quizResults?`, `drafts?`) are `Option`s here; the handlers read them with
the `(notebook.xs || [])` idiom, embedded as `Option.getD _ []`. -/
structure Notebook where
  id : String
  title : String
  sources : List Source
  notes : List Note
  infographics : List Infographic
  flashcardSets : Option (List FlashcardSet)
  quizzes : Option (List Quiz)
  quizResults : Option (List QuizResult)
  drafts : Option (List Draft)
  createdAt : Nat
deriving DecidableEq, Repr

/-- Notebook created by `handleCreateNotebook` in `App`: id is
`Date.now().toString()`, title is `'Untitled Notebook'`, all collections
empty. -/
def mkNotebook (now : Nat) : Notebook :=
  { id := toString now
    title := "Untitled Notebook"
    sources := []
    notes := []
    infographics := []
    flashcardSets := some []
    quizzes := some []
    quizResults := some []
    drafts := some []
    createdAt := now }

/-- `handleCreateNotebook` in `App`: `setNotebooks(prev => [newNotebook, ...prev])`. -/
def handleCreateNotebook (now : Nat) (notebooks : List Notebook) : List Notebook :=
  mkNotebook now :: notebooks

/-- `handleUpdateNotebook` in `App`:
`prev.map(nb => nb.id === updated.id ? updated : nb)`. -/
def handleUpdateNotebook (updated : Notebook) (notebooks : List Notebook) : List Notebook :=
  notebooks.map fun nb => if nb.id = updated.id then updated else nb

/-- `handleDeleteNotebook` in `App` (collection part):
`prev.filter(nb => nb.id !== id)`. -/
def handleDeleteNotebook (id : String) (notebooks : List Notebook) : List Notebook :=
  notebooks.filter fun nb => nb.id != id

/-- Note created by `createNewNote` in `NotePad`: id is
`Date.now().toString()`, empty content. -/
def mkNote (now : Nat) : Note :=
  { id := toString now, content := "", createdAt := now }

/-- `handleAddNote` in `Workspace`: `notes: [note, ...notebook.notes]`. -/
def handleAddNote (nb : Notebook) (note : Note) : Notebook :=
  { nb with notes := note :: nb.notes }

/-- `handleUpdateNote` in `Workspace`:
`notes.map(n => n.id === id ? { ...n, content } : n)`. -/
def handleUpdateNote (id : String) (content : String) (nb : Notebook) : Notebook :=
  { nb with notes := nb.notes.map fun n => if n.id = id then { n with content := content } else n }

/-- Score loop of `handleSubmitQuiz` in `QuizView`:
`questions.forEach((q, idx) => { if (userAnswers[idx] === q.correctAnswerIndex) score++ })`.
An out-of-range access (`userAnswers[idx]` = `undefined`) never matches. -/
def computeScore : List QuizQuestion → List Int → Nat
  | [], _ => 0
  | _ :: qs, [] => computeScore qs []
  | q :: qs, a :: rest => (if a = q.correctAnswerIndex then 1 else 0) + computeScore qs rest

/-- `handleSubmitQuiz` in `QuizView`: computes the score, builds a new
`QuizResult` (id `Date.now().toString()`) and prepends it:
`quizResults: [newResult, ...(notebook.quizResults || [])]`. -/
def handleSubmitQuiz (quiz : Quiz) (userAnswers : List Int) (now : Nat) (nb : Notebook) :
    Notebook :=
  let newResult : QuizResult :=
    { id := toString now
      quizId := quiz.id
      score := computeScore quiz.questions userAnswers
      totalQuestions := quiz.questions.length
      date := now
      userAnswers := userAnswers }
  { nb with quizResults := some (newResult :: nb.quizResults.getD []) }

/-- Submission as reachable through the UI: the Finish Quiz button carries
`disabled={userAnswers.includes(-1)}`, so `handleSubmitQuiz` only runs when
no slot is `-1`. -/
def finishQuiz (quiz : Quiz) (userAnswers : List Int) (now : Nat) (nb : Notebook) : Notebook :=
  if userAnswers.contains (-1) then nb else handleSubmitQuiz quiz userAnswers now nb

/-- `handleDeleteQuiz` in `QuizView`: filters the quiz out of `quizzes` and
every result referencing it out of `quizResults`. -/
def handleDeleteQuiz (id : String) (nb : Notebook) : Notebook :=
  { nb with
    quizzes := some ((nb.quizzes.getD []).filter fun q => q.id != id)
    quizResults := some ((nb.quizResults.getD []).filter fun r => r.quizId != id) }

/-- Index arithmetic of `nextCard` in `FlashcardView`:
`(prev + 1) % activeSet.cards.length`. -/
def nextCardIdx (idx len : Nat) : Nat :=
  (idx + 1) % len

/-- Index arithmetic of `prevCard` in `FlashcardView`:
`(prev - 1 + activeSet.cards.length) % activeSet.cards.length` (on JS numbers
`prev - 1 + len` equals `prev + len - 1`, never negative for `len ≥ 1`). -/
def prevCardIdx (idx len : Nat) : Nat :=
  (idx + len - 1) % len

/-- Outcome of one text-producing oracle call (`generateContent` or
`chat.sendMessage`): either a response whose `.text` may be absent, or a
thrown error. -/
inductive OracleText where
  | ok (text : Option String)
  | failed
deriving DecidableEq, Repr

/-- Outcome of one schema-constrained oracle call whose JSON payload parses to
`α`: a parsed payload, an empty/unparseable response (`JSON.parse` throwing is
caught together with the empty-text throw), or a thrown transport error. -/
inductive OracleJson (α : Type) where
  | ok (payload : α)
  | empty
  | failed
deriving DecidableEq, Repr

/-- Outcome of the image-producing oracle call of `generateInfographic`: a
response that may or may not contain an inline image part, or a thrown error. -/
inductive OracleImage where
  | ok (image : Option String)
  | failed
deriving DecidableEq, Repr

/-- `queryNotebook` in `geminiService`: returns `result.text` or the literal
`"I couldn't generate a response."` when the text is absent/empty, and on a
thrown oracle error returns the literal error string — a plain `String` in
the ordinary success channel, not a failure value. -/
def queryNotebook : OracleText → String
  | .ok (some t) => if t = "" then "I couldn't generate a response." else t
  | .ok none => "I couldn't generate a response."
  | .failed => "Error communicating with Gemini. Please check your API key."

/-- `generateNote` in `geminiService`: returns `response.text || ""`, and on a
thrown oracle error returns the literal `"Failed to generate note."` — again a
plain `String`, not a failure value. -/
def generateNote : OracleText → String
  | .ok (some t) => t
  | .ok none => ""
  | .failed => "Failed to generate note."

/-- Model of the JS built-in `String.prototype.trim()`: leading and trailing
whitespace removed.  (A plain structural definition so that concrete
instances evaluate.) -/
def jsTrim (s : String) : String :=
  ⟨((s.data.dropWhile Char.isWhitespace).reverse.dropWhile Char.isWhitespace).reverse⟩

/-- Characters removed by `replace(/['"]+/g, '')` in `suggestTitle`:
the double quote (codepoint 34) and the single quote (codepoint 39). -/
def isQuoteChar (c : Char) : Bool :=
  c == Char.ofNat 34 || c == Char.ofNat 39

/-- The `replace(/['"]+/g, '')` step of `suggestTitle`: every quote character
is deleted. -/
def stripQuotes (s : String) : String :=
  ⟨s.data.filter fun c => !isQuoteChar c⟩

/-- `suggestTitle` in `geminiService`:
`response.text?.replace(/['"]+/g, '').trim() || "New Notebook"` in the try
branch, `"Untitled Notebook"` in the catch branch.  Total — no error ever
propagates. -/
def suggestTitle : OracleText → String
  | .ok (some t) =>
      if jsTrim (stripQuotes t) = "" then "New Notebook" else jsTrim (stripQuotes t)
  | .ok none => "New Notebook"
  | .failed => "Untitled Notebook"

/-- Payload of a successful flashcard-generation call
(`{title, cards}` parsed from the schema-constrained JSON response). -/
structure FlashcardPayload where
  title : String
  cards : List Flashcard
deriving DecidableEq, Repr

/-- Question shape inside the quiz-generation payload — no `id` yet; ids are
backfilled by `generateQuiz` because the oracle is not guaranteed to supply
them. -/
structure RawQuizQuestion where
  question : String
  options : List String
  correctAnswerIndex : Int
  explanation : String
deriving DecidableEq, Repr

/-- Payload of a successful quiz-generation call (`{title, questions}`). -/
structure QuizPayload where
  title : String
  questions : List RawQuizQuestion
deriving DecidableEq, Repr

/-- `generateFlashcards` in `geminiService`: returns the parsed payload, and
throws (here `Except.error`) both on a thrown oracle error and on an
empty/unparseable response (`throw new Error("Empty response")`, rethrown by
the catch). -/
def generateFlashcards : OracleJson FlashcardPayload → Except Unit FlashcardPayload
  | .ok p => .ok p
  | .empty => .error ()
  | .failed => .error ()

/-- Id backfill of `generateQuiz`:
`data.questions.map(q => ({...q, id: Math.random()...}))`; the fresh random
ids are supplied as the function `idsf`. -/
def assignQuestionIds (idsf : Nat → String) (qs : List RawQuizQuestion) : List QuizQuestion :=
  qs.mapIdx fun i q =>
    { id := idsf i
      question := q.question
      options := q.options
      correctAnswerIndex := q.correctAnswerIndex
      explanation := q.explanation }

/-- `generateQuiz` in `geminiService`: parsed payload with ids backfilled on
success; `Except.error` on a thrown oracle error or an empty/unparseable
response (`throw new Error("Empty quiz response")`, rethrown). -/
def generateQuiz (idsf : Nat → String) :
    OracleJson QuizPayload → Except Unit (String × List QuizQuestion)
  | .ok p => .ok (p.title, assignQuestionIds idsf p.questions)
  | .empty => .error ()
  | .failed => .error ()

/-- `generateInfographic` in `geminiService`: on success returns the inline
image data URI when one is present and `null` (`none`) otherwise; a thrown
oracle error is rethrown (`Except.error`). -/
def generateInfographic : OracleImage → Except Unit (Option String)
  | .ok d => .ok d
  | .failed => .error ()

/-- Modelled from the spec: `transformContent` (the draft transformer of
`geminiService`, used by `DraftingView`) is not under `src/`; per spec §4.2 it
returns the transformed text on success and fails with a generic
generation-failed signal on oracle error or malformed/empty oracle response. -/
def transformContent : OracleJson String → Except Unit String
  | .ok t => .ok t
  | .empty => .error ()
  | .failed => .error ()

/-- Concatenated source text `notebook.sources.map(s => s.content).join('\n\n')`
used by the flashcard and quiz generation flows. -/
def joinedSources (nb : Notebook) : String :=
  String.intercalate "\n\n" (nb.sources.map Source.content)

/-- `handleAddSource` in `Workspace`: the new source is appended at the end
(`sources: [...notebook.sources, source]`); when it is the first source of a
still-untitled notebook the title is replaced by `suggestTitle`'s output. -/
def handleAddSource (titleOracle : OracleText) (nb : Notebook) (s : Source) : Notebook :=
  let base : Notebook := { nb with sources := nb.sources ++ [s] }
  if nb.sources.length = 0 ∧ nb.title = "Untitled Notebook" then
    { base with title := suggestTitle titleOracle }
  else
    base

/-- `handleRemoveSource` in `Workspace`: `sources.filter(s => s.id !== id)`. -/
def handleRemoveSource (id : String) (nb : Notebook) : Notebook :=
  { nb with sources := nb.sources.filter fun s => s.id != id }

/-- `handleGenerateSummary` in `NotePad`: bails out when there is no source
content (`if (!currentSourceContent) return`), otherwise builds a note around
whatever string `generateNote` returned — including its error-fallback text —
and commits it via `onAddNote` (which prepends). -/
def handleGenerateSummary (currentSourceContent : String) (o : OracleText) (now : Nat)
    (nb : Notebook) : Notebook :=
  if currentSourceContent = "" then nb
  else
    handleAddNote nb
      { id := toString now
        content := "## Summary\n\n" ++ generateNote o
        createdAt := now }

/-- `handleGenerate` in `FlashcardView`: validates that the joined source text
is non-blank, calls `generateFlashcards`, and on success prepends a new set
(`flashcardSets: [newSet, ...(notebook.flashcardSets || [])]`, title falling
back to `"Study Set"`); the catch branch leaves the notebook untouched. -/
def flashcardGenerateFlow (o : OracleJson FlashcardPayload) (now : Nat) (nb : Notebook) :
    Notebook :=
  if jsTrim (joinedSources nb) = "" then nb
  else
    match generateFlashcards o with
    | .ok r =>
        { nb with
          flashcardSets :=
            some ({ id := toString now
                    title := if r.title = "" then "Study Set" else r.title
                    cards := r.cards
                    createdAt := now } :: nb.flashcardSets.getD []) }
    | .error _ => nb

/-- `handleGenerate` in `QuizView`: validates the joined source text, calls
`generateQuiz`, and on success prepends a new quiz
(`quizzes: [newQuiz, ...(notebook.quizzes || [])]`); the catch branch leaves
the notebook untouched. -/
def quizGenerateFlow (idsf : Nat → String) (o : OracleJson QuizPayload) (now : Nat)
    (nb : Notebook) : Notebook :=
  if jsTrim (joinedSources nb) = "" then nb
  else
    match generateQuiz idsf o with
    | .ok r =>
        { nb with
          quizzes :=
            some ({ id := toString now
                    title := r.1
                    questions := r.2
                    createdAt := now } :: nb.quizzes.getD []) }
    | .error _ => nb

/-- `handleGenerate` in `InfographicView`: validates the joined source text,
calls `generateInfographic`, and commits a prepended infographic only when an
image URL actually came back; both the `null`-image branch and the catch
branch leave the notebook untouched. -/
def infographicGenerateFlow (o : OracleImage) (now : Nat) (nb : Notebook) : Notebook :=
  if jsTrim (joinedSources nb) = "" then nb
  else
    match generateInfographic o with
    | .ok (some imageUrl) =>
        { nb with
          infographics :=
            { id := toString now
              imageUrl := imageUrl
              createdAt := now
              prompt := "Generated from notebook sources" } :: nb.infographics }
    | .ok none => nb
    | .error _ => nb

/-- `handleGenerate` in `DraftingView`: validates the chosen input text, calls
the (spec-modelled) `transformContent`, and on success prepends a new draft
(`[newDraft, ...(notebook.drafts || [])]`); the catch branch leaves the
notebook untouched.  `timeLabel` stands for `new Date().toLocaleTimeString()`
in the draft title. -/
def draftGenerateFlow (inputContent : String) (fmt : DraftKind) (o : OracleJson String)
    (now : Nat) (timeLabel : String) (nb : Notebook) : Notebook :=
  if jsTrim inputContent = "" then nb
  else
    match transformContent o with
    | .ok result =>
        { nb with
          drafts :=
            some ({ id := toString now
                    title := timeLabel
                    kind := fmt
                    content := result
                    createdAt := now } :: nb.drafts.getD []) }
    | .error _ => nb

/-- Startup loader of `App`'s `notebooks` state: reads the
`'nexus_notes_data'` key; an absent key yields `[]`, and a present string is
`JSON.parse`d inside try/catch, the catch falling through to `[]`.  The
parser (which either yields a value or throws) is the explicit parameter
`parse`. -/
def loadNotebooks (parse : String → Option (List Notebook)) :
    Option String → List Notebook
  | none => []
  | some saved => (parse saved).getD []

/-- Least-significant-first decimal digit characters of a natural number;
reference implementation used to reason about `Nat.repr` (and hence about
`Date.now().toString()` ids). -/
def decDigitsRev (n : Nat) : List Char :=
  if _h : n / 10 = 0 then [Nat.digitChar (n % 10)]
  else Nat.digitChar (n % 10) :: decDigitsRev (n / 10)
termination_by n
decreasing_by omega

/-- Sample quiz question with a given correct index, for concrete instances. -/
def sampleQuestion (cai : Int) : QuizQuestion :=
  { id := "q"
    question := "?"
    options := ["a", "b", "c", "d"]
    correctAnswerIndex := cai
    explanation := "e" }

/-- Sample two-question quiz, for concrete instances. -/
def sampleQuiz : Quiz :=
  { id := "10", title := "T", questions := [sampleQuestion 0, sampleQuestion 2], createdAt := 10 }

/-- Sample quiz result referencing `sampleQuiz`, for concrete instances. -/
def sampleResult : QuizResult :=
  { id := "20", quizId := "10", score := 1, totalQuestions := 2, date := 20, userAnswers := [0, 1] }

/-- Sample text source, for concrete instances. -/
def sampleSource : Source :=
  { id := "s1", name := "doc", kind := .text, content := "abc", timestamp := 3 }

/-- Second sample text source, for concrete instances. -/
def sampleSource2 : Source :=
  { id := "s2", name := "doc2", kind := .text, content := "xyz", timestamp := 4 }

/-- Sample notebook holding one source, one quiz and one result, for concrete
instances. -/
def sampleNotebook : Notebook :=
  { mkNotebook 1 with
    sources := [sampleSource]
    quizzes := some [sampleQuiz]
    quizResults := some [sampleResult] }

/-- Sample flashcard payload, for concrete instances. -/
def samplePayload : FlashcardPayload :=
  { title := "Deck", cards := [{ front := "f", back := "b" }] }

end NexusNotes

namespace NexusNotes

/-- Auxiliary: an empty answer vector scores zero. -/
theorem computeScore_nil (qs : List QuizQuestion) : computeScore qs [] = 0 := by
  induction qs with
  | nil => simp [computeScore]
  | cons q' qs' ih' => simpa [computeScore] using ih'

/-- Auxiliary: `computeScore` counts the aligned positions where the selected
index equals the question's correct index.  (When the answer vector is shorter
than the question list the missing slots never match, exactly as
`undefined !== q.correctAnswerIndex` in JS, so no length hypothesis is
needed.) -/
theorem computeScore_eq_countP (qs : List QuizQuestion) (as_ : List Int) :
    computeScore qs as_ =
      (qs.zip as_).countP fun p => decide (p.2 = p.1.correctAnswerIndex) := by
  induction qs generalizing as_ with
  | nil => simp [computeScore]
  | cons q qs ih =>
    cases as_ with
    | nil => simp [computeScore, computeScore_nil]
    | cons a rest =>
      simp [computeScore, List.countP_cons, ih rest]
      by_cases h : a = q.correctAnswerIndex <;> simp [h, Nat.add_comm]

/-- Auxiliary: non-dependent unfolding equation for `decDigitsRev`. -/
theorem decDigitsRev_def (n : Nat) :
    decDigitsRev n =
      if n / 10 = 0 then [Nat.digitChar (n % 10)]
      else Nat.digitChar (n % 10) :: decDigitsRev (n / 10) := by
  rw [decDigitsRev]
  by_cases h : n / 10 = 0 <;> simp [h]

/-- Auxiliary: `Nat.toDigitsCore` with enough fuel produces the decimal
digits most-significant-first in front of the accumulator. -/
theorem toDigitsCore_eq_decDigitsRev (fuel : Nat) :
    ∀ (n : Nat) (acc : List Char), n < fuel →
      Nat.toDigitsCore 10 fuel n acc = (decDigitsRev n).reverse ++ acc := by
  induction fuel with
  | zero => intro n acc h; omega
  | succ fuel ih =>
    intro n acc h
    rw [Nat.toDigitsCore]
    by_cases h10 : n / 10 = 0
    · rw [decDigitsRev_def n, if_pos h10]
      simp [h10]
    · rw [decDigitsRev_def n, if_neg h10]
      simp only [h10, if_false, ite_false]
      rw [ih (n / 10) _ (by omega)]
      simp

/-- Auxiliary: `Nat.repr` is the string of the decimal digits. -/
theorem natRepr_eq_decDigitsRev (n : Nat) :
    Nat.repr n = ((decDigitsRev n).reverse).asString := by
  rw [Nat.repr, Nat.toDigits, toDigitsCore_eq_decDigitsRev (n + 1) n [] (by omega)]
  simp

/-- Auxiliary: `Nat.digitChar` is injective on decimal digits. -/
theorem digitChar_inj_lt10 (a b : Nat) (ha : a < 10) (hb : b < 10)
    (h : Nat.digitChar a = Nat.digitChar b) : a = b := by
  interval_cases a <;> interval_cases b <;> revert h <;> decide

/-- Auxiliary: `decDigitsRev` is never empty. -/
theorem decDigitsRev_ne_nil (n : Nat) : decDigitsRev n ≠ [] := by
  rw [decDigitsRev]
  split <;> simp

/-- Auxiliary: the decimal digit list determines the number. -/
theorem decDigitsRev_inj (a : Nat) :
    ∀ b : Nat, decDigitsRev a = decDigitsRev b → a = b := by
  induction a using Nat.strong_induction_on with
  | _ a ih =>
    intro b h
    rw [decDigitsRev_def a, decDigitsRev_def b] at h
    by_cases ha : a / 10 = 0 <;> by_cases hb : b / 10 = 0
    · rw [if_pos ha, if_pos hb] at h
      simp only [List.cons.injEq, and_true] at h
      have := digitChar_inj_lt10 (a % 10) (b % 10) (by omega) (by omega) h
      omega
    · rw [if_pos ha, if_neg hb] at h
      simp only [List.cons.injEq] at h
      exact absurd h.2.symm (decDigitsRev_ne_nil (b / 10))
    · rw [if_neg ha, if_pos hb] at h
      simp only [List.cons.injEq] at h
      exact absurd h.2 (decDigitsRev_ne_nil (a / 10))
    · rw [if_neg ha, if_neg hb] at h
      simp only [List.cons.injEq] at h
      have h1 := digitChar_inj_lt10 (a % 10) (b % 10) (by omega) (by omega) h.1
      have h2 := ih (a / 10) (by omega) (b / 10) h.2
      omega

/-- Auxiliary: `Nat.repr` (the model of `Number.prototype.toString` on a JS
timestamp) is injective. -/
theorem natRepr_injective : Function.Injective Nat.repr := by
  intro a b h
  rw [natRepr_eq_decDigitsRev, natRepr_eq_decDigitsRev] at h
  have hdata := congrArg String.data h
  simp only [List.asString] at hdata
  exact decDigitsRev_inj a b (List.reverse_injective hdata)

/-- Auxiliary: `toString` on `Nat` is injective. -/
theorem natToString_injective : Function.Injective (fun n : Nat => toString n) :=
  fun _ _ h => natRepr_injective h

/-- Claim C1: for a quiz with `N` questions and an answer vector of length `N`
in which exactly `K` entries equal their question's `correctAnswerIndex`,
`handleSubmitQuiz` produces a `QuizResult` with `score = K` and
`totalQuestions = N`, prepended to the notebook's `quizResults` collection. -/
theorem submitQuiz_scores_and_prepends_C1 (quiz : Quiz) (answers : List Int) (now : Nat)
    (nb : Notebook) (K : Nat)
    (hlen : answers.length = quiz.questions.length)
    (hK : K = (quiz.questions.zip answers).countP fun p => decide (p.2 = p.1.correctAnswerIndex)) :
    (handleSubmitQuiz quiz answers now nb).quizResults =
      some ({ id := toString now
              quizId := quiz.id
              score := K
              totalQuestions := quiz.questions.length
              date := now
              userAnswers := answers } :: nb.quizResults.getD []) := by
  subst hK
  simp [handleSubmitQuiz, computeScore_eq_countP]

/-- Witness for C1 at the concrete two-question quiz with one correct answer. -/
theorem submitQuiz_scores_and_prepends_C1_witness :
    (handleSubmitQuiz sampleQuiz [0, 1] 7 (mkNotebook 1)).quizResults =
      some ({ id := toString 7
              quizId := sampleQuiz.id
              score := 1
              totalQuestions := sampleQuiz.questions.length
              date := 7
              userAnswers := [0, 1] } :: (mkNotebook 1).quizResults.getD []) :=
  submitQuiz_scores_and_prepends_C1 sampleQuiz [0, 1] 7 (mkNotebook 1) 1 (by decide) (by decide)

/-- Claim C2: a submission whose answer vector still contains `-1` is rejected
through the Finish Quiz button guard: the notebook (in particular its
`quizResults` collection) is unchanged and no `QuizResult` is created. -/
theorem finishQuiz_rejects_unanswered_C2 (quiz : Quiz) (answers : List Int) (now : Nat)
    (nb : Notebook) (h : answers.contains (-1) = true) :
    finishQuiz quiz answers now nb = nb ∧
    (finishQuiz quiz answers now nb).quizResults = nb.quizResults := by
  have hmain : finishQuiz quiz answers now nb = nb := by
    unfold finishQuiz
    rw [if_pos h]
  exact ⟨hmain, by rw [hmain]⟩

/-- Witness for C2 at a concrete answer vector with an unanswered slot. -/
theorem finishQuiz_rejects_unanswered_C2_witness :
    finishQuiz sampleQuiz [0, -1] 7 (mkNotebook 1) = mkNotebook 1 ∧
    (finishQuiz sampleQuiz [0, -1] 7 (mkNotebook 1)).quizResults =
      (mkNotebook 1).quizResults :=
  finishQuiz_rejects_unanswered_C2 sampleQuiz [0, -1] 7 (mkNotebook 1) (by decide)

/-- Claim C3: deleting a quiz that is present removes it and every
`QuizResult` referencing it, and (assuming every result referenced some
existing quiz beforehand) afterwards no result references a quiz missing from
the `quizzes` collection. -/
theorem deleteQuiz_cascades_C3 (qid : String) (nb : Notebook)
    (hmem : qid ∈ (nb.quizzes.getD []).map Quiz.id)
    (hinv : ∀ r ∈ nb.quizResults.getD [], r.quizId ∈ (nb.quizzes.getD []).map Quiz.id) :
    (∀ q ∈ (handleDeleteQuiz qid nb).quizzes.getD [], q.id ≠ qid) ∧
    (∀ r ∈ (handleDeleteQuiz qid nb).quizResults.getD [], r.quizId ≠ qid) ∧
    (∀ r ∈ (handleDeleteQuiz qid nb).quizResults.getD [],
        r.quizId ∈ ((handleDeleteQuiz qid nb).quizzes.getD []).map Quiz.id) := by
  refine ⟨?_, ?_, ?_⟩
  · intro q hq
    simp only [handleDeleteQuiz, Option.getD_some, List.mem_filter, bne_iff_ne, ne_eq] at hq
    exact hq.2
  · intro r hr
    simp only [handleDeleteQuiz, Option.getD_some, List.mem_filter, bne_iff_ne, ne_eq] at hr
    exact hr.2
  · intro r hr
    simp only [handleDeleteQuiz, Option.getD_some, List.mem_filter, bne_iff_ne, ne_eq] at hr ⊢
    obtain ⟨hrold, hrne⟩ := hr
    obtain ⟨q, hqold, hqeq⟩ := List.mem_map.mp (hinv r hrold)
    exact List.mem_map.mpr ⟨q, List.mem_filter.mpr ⟨hqold, by simp [bne_iff_ne, hqeq, hrne]⟩, hqeq⟩

/-- Witness for C3 at the concrete sample notebook. -/
theorem deleteQuiz_cascades_C3_witness :
    (∀ q ∈ (handleDeleteQuiz "10" sampleNotebook).quizzes.getD [], q.id ≠ "10") ∧
    (∀ r ∈ (handleDeleteQuiz "10" sampleNotebook).quizResults.getD [], r.quizId ≠ "10") ∧
    (∀ r ∈ (handleDeleteQuiz "10" sampleNotebook).quizResults.getD [],
        r.quizId ∈ ((handleDeleteQuiz "10" sampleNotebook).quizzes.getD []).map Quiz.id) :=
  deleteQuiz_cascades_C3 "10" sampleNotebook (by decide) (by decide)

/-- Auxiliary: `handleUpdateNotebook` leaves any list alone whose members all
have a different id from the incoming value. -/
theorem handleUpdateNotebook_eq_of_absent (updated : Notebook) :
    ∀ notebooks : List Notebook, (∀ nb ∈ notebooks, nb.id ≠ updated.id) →
      handleUpdateNotebook updated notebooks = notebooks := by
  intro notebooks h
  induction notebooks with
  | nil => rfl
  | cons x xs ih =>
    simp only [handleUpdateNotebook, List.map_cons] at ih ⊢
    rw [if_neg (h x (List.mem_cons_self x xs)), ih fun nb hnb => h nb (List.mem_cons_of_mem x hnb)]

/-- Claim C4: updating with a notebook value whose id matches no stored
notebook is a no-op, and in particular a debounced note write arriving after
its owning notebook was deleted changes nothing. -/
theorem updateNotebook_unknown_id_noop_C4 (updated : Notebook) (notebooks : List Notebook)
    (h : ∀ nb ∈ notebooks, nb.id ≠ updated.id) :
    handleUpdateNotebook updated notebooks = notebooks ∧
    handleUpdateNotebook updated (handleDeleteNotebook updated.id notebooks) =
      handleDeleteNotebook updated.id notebooks := by
  refine ⟨handleUpdateNotebook_eq_of_absent updated notebooks h, ?_⟩
  refine handleUpdateNotebook_eq_of_absent updated _ ?_
  intro nb hnb
  simp only [handleDeleteNotebook, List.mem_filter, bne_iff_ne, ne_eq] at hnb
  exact hnb.2

/-- Witness for C4 at a concrete collection not containing the incoming id. -/
theorem updateNotebook_unknown_id_noop_C4_witness :
    handleUpdateNotebook (mkNotebook 2) [mkNotebook 1] = [mkNotebook 1] ∧
    handleUpdateNotebook (mkNotebook 2) (handleDeleteNotebook (mkNotebook 2).id [mkNotebook 1]) =
      handleDeleteNotebook (mkNotebook 2).id [mkNotebook 1] :=
  updateNotebook_unknown_id_noop_C4 (mkNotebook 2) [mkNotebook 1] (by decide)

/-- Counterexample to C5 as stated: `handleAddSource` appends the new source
at the END of `sources` (`[...notebook.sources, source]`), not at the front. -/
theorem addSource_appends_C5_counterexample :
    (handleAddSource OracleText.failed sampleNotebook sampleSource2).sources =
      sampleNotebook.sources ++ [sampleSource2] ∧
    (handleAddSource OracleText.failed sampleNotebook sampleSource2).sources ≠
      sampleSource2 :: sampleNotebook.sources := by
  refine ⟨rfl, ?_⟩
  decide

/-- Claim C5 (amended): creating a notebook and adding a note, flashcard set,
quiz, quiz result or draft prepends the new item, leaving the existing items'
order unchanged; adding a source instead appends it at the end. -/
theorem additions_order_C5_amended :
    (∀ (now : Nat) (notebooks : List Notebook),
        handleCreateNotebook now notebooks = mkNotebook now :: notebooks) ∧
    (∀ (nb : Notebook) (note : Note), (handleAddNote nb note).notes = note :: nb.notes) ∧
    (∀ (quiz : Quiz) (answers : List Int) (now : Nat) (nb : Notebook),
        (handleSubmitQuiz quiz answers now nb).quizResults =
          some ({ id := toString now
                  quizId := quiz.id
                  score := computeScore quiz.questions answers
                  totalQuestions := quiz.questions.length
                  date := now
                  userAnswers := answers } :: nb.quizResults.getD [])) ∧
    (∀ (p : FlashcardPayload) (now : Nat) (nb : Notebook), jsTrim (joinedSources nb) ≠ "" →
        (flashcardGenerateFlow (.ok p) now nb).flashcardSets =
          some ({ id := toString now
                  title := if p.title = "" then "Study Set" else p.title
                  cards := p.cards
                  createdAt := now } :: nb.flashcardSets.getD [])) ∧
    (∀ (idsf : Nat → String) (p : QuizPayload) (now : Nat) (nb : Notebook),
        jsTrim (joinedSources nb) ≠ "" →
        (quizGenerateFlow idsf (.ok p) now nb).quizzes =
          some ({ id := toString now
                  title := p.title
                  questions := assignQuestionIds idsf p.questions
                  createdAt := now } :: nb.quizzes.getD [])) ∧
    (∀ (s : String) (fmt : DraftKind) (t : String) (now : Nat) (tl : String) (nb : Notebook),
        jsTrim s ≠ "" →
        (draftGenerateFlow s fmt (.ok t) now tl nb).drafts =
          some ({ id := toString now
                  title := tl
                  kind := fmt
                  content := t
                  createdAt := now } :: nb.drafts.getD [])) ∧
    (∀ (o : OracleText) (nb : Notebook) (s : Source),
        (handleAddSource o nb s).sources = nb.sources ++ [s]) := by
  refine ⟨fun _ _ => rfl, fun _ _ => rfl, fun _ _ _ _ => rfl, ?_, ?_, ?_, ?_⟩
  · intro p now nb h
    simp [flashcardGenerateFlow, generateFlashcards, h]
  · intro idsf p now nb h
    simp [quizGenerateFlow, generateQuiz, h]
  · intro s fmt t now tl nb h
    simp [draftGenerateFlow, transformContent, h]
  · intro o nb s
    simp only [handleAddSource]
    split <;> rfl

/-- Witness for C5 (amended) at the concrete sample notebook. -/
theorem additions_order_C5_amended_witness :
    (flashcardGenerateFlow (.ok samplePayload) 7 sampleNotebook).flashcardSets =
      some ({ id := toString 7
              title := if samplePayload.title = "" then "Study Set" else samplePayload.title
              cards := samplePayload.cards
              createdAt := 7 } :: sampleNotebook.flashcardSets.getD []) :=
  additions_order_C5_amended.2.2.2.1 samplePayload 7 sampleNotebook (by decide)

/-- Counterexample to C6 as stated: ids are `Date.now().toString()`, so two
creations in the same millisecond produce entries with identical ids in the
same owning collection (shown for the notebook collection and for a
notebook's notes). -/
theorem same_millisecond_id_collision_C6_counterexample :
    (handleCreateNotebook 5 (handleCreateNotebook 5 [])).length = 2 ∧
    ¬ ((handleCreateNotebook 5 (handleCreateNotebook 5 [])).map Notebook.id).Nodup ∧
    ¬ (((handleAddNote (handleAddNote (mkNotebook 1) (mkNote 5)) (mkNote 5)).notes.map
          Note.id).Nodup) := by
  refine ⟨rfl, ?_, ?_⟩ <;>
    simp [handleCreateNotebook, handleAddNote, mkNotebook, mkNote, List.nodup_cons]

/-- Claim C6 (amended): for the entities whose ids are produced by
`Date.now().toString()` — notebooks, notes, quiz results, flashcard sets,
quizzes and drafts — two entities created at distinct timestamps have
distinct ids, so id uniqueness within those collections holds only under
distinct creation timestamps (same-millisecond creations collide, see the
counterexample); source ids come from `Math.random().toString(36).substring(7)`
and carry no timestamp-based distinctness guarantee. -/
theorem ids_distinct_for_distinct_timestamps_C6_amended (t1 t2 : Nat) (h : t1 ≠ t2) :
    (mkNotebook t1).id ≠ (mkNotebook t2).id ∧
    (mkNote t1).id ≠ (mkNote t2).id ∧
    (∀ (q1 q2 : Quiz) (a1 a2 : List Int) (nb1 nb2 : Notebook) (r1 r2 : QuizResult),
        ((handleSubmitQuiz q1 a1 t1 nb1).quizResults.getD []).head? = some r1 →
        ((handleSubmitQuiz q2 a2 t2 nb2).quizResults.getD []).head? = some r2 →
        r1.id ≠ r2.id) ∧
    (∀ (p1 p2 : FlashcardPayload) (nb1 nb2 : Notebook) (s1 s2 : FlashcardSet),
        jsTrim (joinedSources nb1) ≠ "" → jsTrim (joinedSources nb2) ≠ "" →
        ((flashcardGenerateFlow (.ok p1) t1 nb1).flashcardSets.getD []).head? = some s1 →
        ((flashcardGenerateFlow (.ok p2) t2 nb2).flashcardSets.getD []).head? = some s2 →
        s1.id ≠ s2.id) ∧
    (∀ (f1 f2 : Nat → String) (p1 p2 : QuizPayload) (nb1 nb2 : Notebook) (z1 z2 : Quiz),
        jsTrim (joinedSources nb1) ≠ "" → jsTrim (joinedSources nb2) ≠ "" →
        ((quizGenerateFlow f1 (.ok p1) t1 nb1).quizzes.getD []).head? = some z1 →
        ((quizGenerateFlow f2 (.ok p2) t2 nb2).quizzes.getD []).head? = some z2 →
        z1.id ≠ z2.id) ∧
    (∀ (i1 i2 : String) (k1 k2 : DraftKind) (c1 c2 : String) (l1 l2 : String)
        (nb1 nb2 : Notebook) (d1 d2 : Draft),
        jsTrim i1 ≠ "" → jsTrim i2 ≠ "" →
        ((draftGenerateFlow i1 k1 (.ok c1) t1 l1 nb1).drafts.getD []).head? = some d1 →
        ((draftGenerateFlow i2 k2 (.ok c2) t2 l2 nb2).drafts.getD []).head? = some d2 →
        d1.id ≠ d2.id) := by
  have hne : toString t1 ≠ toString t2 := fun hc => h (natToString_injective hc)
  refine ⟨hne, hne, ?_, ?_, ?_, ?_⟩
  · intro q1 q2 a1 a2 nb1 nb2 r1 r2 h1 h2
    simp only [handleSubmitQuiz, Option.getD_some, List.head?_cons, Option.some.injEq] at h1 h2
    subst h1
    subst h2
    exact hne
  · intro p1 p2 nb1 nb2 s1 s2 hg1 hg2 h1 h2
    simp only [flashcardGenerateFlow, generateFlashcards, if_neg hg1, Option.getD_some,
      List.head?_cons, Option.some.injEq] at h1
    simp only [flashcardGenerateFlow, generateFlashcards, if_neg hg2, Option.getD_some,
      List.head?_cons, Option.some.injEq] at h2
    subst h1
    subst h2
    exact hne
  · intro f1 f2 p1 p2 nb1 nb2 z1 z2 hg1 hg2 h1 h2
    simp only [quizGenerateFlow, generateQuiz, if_neg hg1, Option.getD_some,
      List.head?_cons, Option.some.injEq] at h1
    simp only [quizGenerateFlow, generateQuiz, if_neg hg2, Option.getD_some,
      List.head?_cons, Option.some.injEq] at h2
    subst h1
    subst h2
    exact hne
  · intro i1 i2 k1 k2 c1 c2 l1 l2 nb1 nb2 d1 d2 hg1 hg2 h1 h2
    simp only [draftGenerateFlow, transformContent, if_neg hg1, Option.getD_some,
      List.head?_cons, Option.some.injEq] at h1
    simp only [draftGenerateFlow, transformContent, if_neg hg2, Option.getD_some,
      List.head?_cons, Option.some.injEq] at h2
    subst h1
    subst h2
    exact hne

/-- Witness for C6 (amended) at distinct concrete timestamps. -/
theorem ids_distinct_for_distinct_timestamps_C6_amended_witness :
    (mkNotebook 1).id ≠ (mkNotebook 2).id :=
  (ids_distinct_for_distinct_timestamps_C6_amended 1 2 (by decide)).1

/-- Counterexample to C7 as stated: on a thrown oracle error the note
generator returns the ordinary string `"Failed to generate note."` (not a
distinguishable failure outcome), and the auto-summarize flow commits a note
containing that text to the notebook. -/
theorem noteGenerator_commits_fallback_C7_counterexample :
    generateNote OracleText.failed = "Failed to generate note." ∧
    (handleGenerateSummary "abc" OracleText.failed 7 (mkNotebook 1)).notes =
      [{ id := toString 7
         content := "## Summary\n\n" ++ "Failed to generate note."
         createdAt := 7 }] ∧
    (handleGenerateSummary "abc" OracleText.failed 7 (mkNotebook 1)).notes ≠
      (mkNotebook 1).notes := by
  refine ⟨rfl, rfl, ?_⟩
  simp [handleGenerateSummary, handleAddNote, mkNotebook, generateNote]

/-- Claim C7 (amended): the flashcard, quiz and (spec-modelled) draft
generators fail with a distinguishable generation-failed signal
(`Except.error`) on oracle error or malformed/empty response; the infographic
generator rethrows a thrown oracle error but returns a null image (`none`,
"no image produced") on a response without an image part; in all these cases
the view flows leave the notebook unchanged.  The chat-answer and note
generators instead return fixed fallback text through the ordinary `String`
success channel, and the auto-summarize flow commits a note containing that
fallback text. -/
theorem generator_failure_modes_C7_amended :
    (generateFlashcards .failed = .error () ∧ generateFlashcards .empty = .error ()) ∧
    (∀ idsf : Nat → String,
        generateQuiz idsf .failed = .error () ∧ generateQuiz idsf .empty = .error ()) ∧
    (generateInfographic .failed = .error () ∧
      generateInfographic (.ok none) = .ok none) ∧
    (transformContent .failed = .error () ∧ transformContent .empty = .error ()) ∧
    (∀ (o : OracleJson FlashcardPayload) (now : Nat) (nb : Notebook),
        generateFlashcards o = .error () → flashcardGenerateFlow o now nb = nb) ∧
    (∀ (idsf : Nat → String) (o : OracleJson QuizPayload) (now : Nat) (nb : Notebook),
        generateQuiz idsf o = .error () → quizGenerateFlow idsf o now nb = nb) ∧
    (∀ (now : Nat) (nb : Notebook),
        infographicGenerateFlow .failed now nb = nb ∧
        infographicGenerateFlow (.ok none) now nb = nb) ∧
    (∀ (s : String) (fmt : DraftKind) (o : OracleJson String) (now : Nat) (tl : String)
        (nb : Notebook), transformContent o = .error () →
        draftGenerateFlow s fmt o now tl nb = nb) ∧
    queryNotebook .failed = "Error communicating with Gemini. Please check your API key." ∧
    generateNote .failed = "Failed to generate note." ∧
    (∀ (s : String) (now : Nat) (nb : Notebook), s ≠ "" →
        (handleGenerateSummary s .failed now nb).notes =
          { id := toString now
            content := "## Summary\n\n" ++ "Failed to generate note."
            createdAt := now } :: nb.notes) := by
  refine ⟨⟨rfl, rfl⟩, fun _ => ⟨rfl, rfl⟩, ⟨rfl, rfl⟩, ⟨rfl, rfl⟩, ?_, ?_, ?_, ?_, rfl, rfl, ?_⟩
  · intro o now nb h
    unfold flashcardGenerateFlow
    rw [h]
    split <;> rfl
  · intro idsf o now nb h
    unfold quizGenerateFlow
    rw [h]
    split <;> rfl
  · intro now nb
    constructor <;> (unfold infographicGenerateFlow; split <;> rfl)
  · intro s fmt o now tl nb h
    unfold draftGenerateFlow
    rw [h]
    split <;> rfl
  · intro s now nb h
    unfold handleGenerateSummary
    rw [if_neg h]
    rfl

/-- Witness for C7 (amended) at the failing oracle and a concrete notebook. -/
theorem generator_failure_modes_C7_amended_witness :
    flashcardGenerateFlow .failed 7 sampleNotebook = sampleNotebook :=
  generator_failure_modes_C7_amended.2.2.2.2.1 .failed 7 sampleNotebook rfl

/-- Claim C8: `suggestTitle` is total over every oracle outcome (it never
propagates an error), always returns a non-empty title, uses the fixed
fallback `"Untitled Notebook"` when the oracle throws, and notebook source
addition still proceeds on a failed title suggestion. -/
theorem suggestTitle_never_fails_C8 :
    (∀ o : OracleText, suggestTitle o ≠ "") ∧
    suggestTitle .failed = "Untitled Notebook" ∧
    (∀ (nb : Notebook) (s : Source),
        (handleAddSource .failed nb s).sources = nb.sources ++ [s]) := by
  refine ⟨?_, rfl, ?_⟩
  · intro o
    match o with
    | .failed => decide
    | .ok none => decide
    | .ok (some t) =>
        simp only [suggestTitle]
        split
        · decide
        · assumption
  · intro nb s
    simp only [handleAddSource]
    split <;> rfl

/-- Claim C9: loading the persisted notebook state never crashes — an absent
data key yields the empty collection, and a stored string on which the JSON
parse fails (models `JSON.parse` throwing on malformed JSON) also yields the
empty collection. -/
theorem load_malformed_is_empty_C9 (parse : String → Option (List Notebook)) (saved : String)
    (h : parse saved = none) :
    loadNotebooks parse (some saved) = [] ∧ loadNotebooks parse none = [] := by
  simp [loadNotebooks, h]

/-- Witness for C9 at a concrete always-failing parse on a malformed string. -/
theorem load_malformed_is_empty_C9_witness :
    loadNotebooks (fun _ => none) (some "not json") = [] ∧
    loadNotebooks (fun _ => none) none = [] :=
  load_malformed_is_empty_C9 (fun _ => none) "not json" rfl

/-- Claim C10: for a non-empty card list and an in-range index, `nextCard`
advances and `prevCard` retreats modulo the card count, the index stays in
range, both wrap at the ends, and each operation undoes the other. -/
theorem card_navigation_C10 (len idx : Nat) (hlen : 0 < len) (hidx : idx < len) :
    nextCardIdx idx len < len ∧
    prevCardIdx idx len < len ∧
    prevCardIdx (nextCardIdx idx len) len = idx ∧
    nextCardIdx (prevCardIdx idx len) len = idx ∧
    nextCardIdx (len - 1) len = 0 ∧
    prevCardIdx 0 len = len - 1 := by
  unfold nextCardIdx prevCardIdx
  have hwrap : (len - 1 + 1) % len = 0 := by
    have e : len - 1 + 1 = len := by omega
    rw [e, Nat.mod_self]
  have hlast : (0 + len - 1) % len = len - 1 := by
    have e : 0 + len - 1 = len - 1 := by omega
    rw [e]
    exact Nat.mod_eq_of_lt (by omega)
  refine ⟨Nat.mod_lt _ hlen, Nat.mod_lt _ hlen, ?_, ?_, hwrap, hlast⟩
  · by_cases h : idx + 1 < len
    · rw [Nat.mod_eq_of_lt h]
      have e : idx + 1 + len - 1 = idx + len := by omega
      rw [e, Nat.add_mod_right, Nat.mod_eq_of_lt hidx]
    · have h1 : idx + 1 = len := by omega
      rw [h1, Nat.mod_self]
      have e : 0 + len - 1 = len - 1 := by omega
      rw [e, Nat.mod_eq_of_lt (show len - 1 < len by omega)]
      omega
  · by_cases h : idx = 0
    · subst h
      rw [hlast, hwrap]
    · have h1 : idx + len - 1 = (idx - 1) + len := by omega
      rw [h1, Nat.add_mod_right, Nat.mod_eq_of_lt (show idx - 1 < len by omega)]
      have h2 : idx - 1 + 1 = idx := by omega
      rw [h2, Nat.mod_eq_of_lt hidx]

/-- Witness for C10 at a three-card deck and the last index. -/
theorem card_navigation_C10_witness :
    nextCardIdx 2 3 < 3 ∧
    prevCardIdx 2 3 < 3 ∧
    prevCardIdx (nextCardIdx 2 3) 3 = 2 ∧
    nextCardIdx (prevCardIdx 2 3) 3 = 2 ∧
    nextCardIdx (3 - 1) 3 = 0 ∧
    prevCardIdx 0 3 = 3 - 1 :=
  card_navigation_C10 3 2 (by decide) (by decide)

end NexusNotes
